import Mathlib

/-!
Verification development for the pixi-expo environment adapter.

The definitions below are a shallow embedding of the adapter and
input-normalization layer:

* `createPointerEvent` / `convertTouchToPointerEvents` embed the touch event
  bridge module (conversion of host touch records into synthetic pointer
  events, with the module-level `touchPositions` map passed explicitly as
  state).
* `ExpoCanvasElement` and its operations embed the canvas surface adapter
  (dimensions, bounding rect, listener registry, context negotiation).
* `AdapterRegistry` embeds the module state of the adapter module
  (`activeCanvas` / `activeGL`) together with `setActiveGLContext`,
  `getActiveCanvas`, `getActiveGL`, `clearActiveContext` and
  `ExpoAdapter.createCanvas`.
* `dispatchWindowEvent` embeds the window-scope dispatch from the polyfills
  module.

JavaScript numbers are modelled as rationals (ℚ); JS `Map`s are modelled as
association lists with unique keys (lookup returns the first binding; since
`Map` keys are unique, removing the key is modelled by filtering out every
binding for it, which coincides with `Map.delete` on all reachable states);
JS `Set`s are modelled as duplicate-free lists in insertion order.  Object
reference identity is modelled by an allocation counter: every `new`
expression draws a fresh `eid`.
-/

namespace PixiExpo

/-! ### Association-list model of JS `Map` -/

/-- Lookup of a key in an association list (first binding wins, as in a JS
`Map`, whose keys are unique). -/
def mapLookup {α β : Type} [DecidableEq α] : List (α × β) → α → Option β
  | [], _ => none
  | (k, v) :: rest, k' => if k = k' then some v else mapLookup rest k'

/-- `Map.set`: replace the binding for the key if present, otherwise append. -/
def mapSet {α β : Type} [DecidableEq α] : List (α × β) → α → β → List (α × β)
  | [], k, v => [(k, v)]
  | (k', v') :: rest, k, v =>
      if k' = k then (k, v) :: rest else (k', v') :: mapSet rest k v

/-- `Map.delete`: remove every binding for the key (keys are unique in a JS
`Map`, so this agrees with deleting the single binding). -/
def mapDelete {α β : Type} [DecidableEq α] (m : List (α × β)) (k : α) :
    List (α × β) :=
  m.filter fun kv => kv.1 ≠ k

theorem mapLookup_mapSet_self {α β : Type} [DecidableEq α]
    (m : List (α × β)) (k : α) (v : β) : mapLookup (mapSet m k v) k = some v := by
  induction m with
  | nil => simp [mapSet, mapLookup]
  | cons hd tl ih =>
      by_cases h : hd.1 = k
      · simp [mapSet, h, mapLookup]
      · simp [mapSet, h, mapLookup, ih]

theorem mapLookup_mapDelete_self {α β : Type} [DecidableEq α]
    (m : List (α × β)) (k : α) : mapLookup (mapDelete m k) k = none := by
  induction m with
  | nil => simp [mapDelete, mapLookup]
  | cons hd tl ih =>
      by_cases h : hd.1 = k
      · simpa [mapDelete, h] using ih
      · simpa [mapDelete, h, mapLookup] using ih

/-! ### Touch event bridge -/

/-- The four PixiJS event types the bridge is invoked with
(`pointerdown` / `pointermove` / `pointerup` / `pointercancel`). -/
inductive EventType : Type
  | pointerdown
  | pointermove
  | pointerup
  | pointercancel
deriving DecidableEq

/-- A React Native touch record: `{identifier, pageX, pageY, locationX?,
locationY?}` as consumed by `createPointerEvent`. -/
structure Touch : Type where
  identifier : Int
  pageX : ℚ
  pageY : ℚ
  locationX : Option ℚ
  locationY : Option ℚ
deriving DecidableEq

/-- `TouchEventBridgeOptions` (the `canvas` target is identified by its
allocation id; `resolution` is accepted but unused by the source). -/
structure TouchEventBridgeOptions : Type where
  canvas : Nat
  offsetX : ℚ := 0
  offsetY : ℚ := 0
deriving DecidableEq

/-- The module-level `touchPositions : Map<number, {x, y}>`. -/
abbrev TouchPositions : Type := List (Int × (ℚ × ℚ))

/-- The scalar fields of the `NativePointerEvent` value built by
`createPointerEvent`.  Function-valued slots (`preventDefault`,
`getCoalescedEvents`, …), the host timestamp and the `nativeEvent` /
`target` / `view` references are omitted; every field present is computed
exactly as in the source. -/
structure NativePointerEvent : Type where
  pointerId : Int
  pointerType : String
  isPrimary : Bool
  button : Int
  buttons : Int
  clientX : ℚ
  clientY : ℚ
  screenX : ℚ
  screenY : ℚ
  pageX : ℚ
  pageY : ℚ
  offsetX : ℚ
  offsetY : ℚ
  layerX : ℚ
  layerY : ℚ
  movementX : ℚ
  movementY : ℚ
  pressure : ℚ
  width : ℚ
  height : ℚ
  tiltX : ℚ
  tiltY : ℚ
  twist : ℚ
  type : EventType
  globalX : ℚ
  globalY : ℚ
deriving DecidableEq

/-- Embedding of `createPointerEvent`.  `density` is the ambient
`PixelRatio.get()` value; the `touchPositions` map is threaded explicitly.
Returns the built event together with the updated map. -/
def createPointerEvent (touch : Touch) (eventType : EventType)
    (options : TouchEventBridgeOptions) ( isPrimary : Bool) (density : ℚ)
    (positions : TouchPositions) : NativePointerEvent × TouchPositions :=
  let x := (touch.locationX.getD (touch.pageX - options.offsetX)) * density
  let y := (touch.locationY.getD (touch.pageY - options.offsetY)) * density
  let prevPos := mapLookup positions touch.identifier
  let movementX := match prevPos with
    | some p => x - p.1
    | none => 0
  let movementY := match prevPos with
    | some p => y - p.2
    | none => 0
  let positions' :=
    if eventType = .pointerup ∨ eventType = .pointercancel then
      mapDelete positions touch.identifier
    else
      mapSet positions touch.identifier (x, y)
  let isDown := eventType = .pointerdown
  let isUp := eventType = .pointerup ∨ eventType = .pointercancel
  let button : Int := if isDown ∨ isUp then 0 else -1
  let buttons : Int := if isUp then 0 else 1
  let ev : NativePointerEvent :=
    { pointerId := touch.identifier
      pointerType := "touch"
      isPrimary := isPrimary
      button := button
      buttons := buttons
      clientX := x
      clientY := y
      screenX := touch.pageX
      screenY := touch.pageY
      pageX := x
      pageY := y
      offsetX := x
      offsetY := y
      layerX := x
      layerY := y
      movementX := movementX
      movementY := movementY
      pressure := if isUp then 0 else 1 / 2
      width := 23
      height := 23
      tiltX := 0
      tiltY := 0
      twist := 0
      type := eventType
      globalX := x
      globalY := y }
  (ev, positions')

/-- The primary-identifier computation of `convertTouchToPointerEvents`:
`allTouches.length > 0 ? allTouches[0].identifier
  : (touches[0]?.identifier ?? 0)`. -/
def primaryIdentifier (allTouches changedTouches : List Touch) : Int :=
  match allTouches with
  | t :: _ => t.identifier
  | [] =>
      match changedTouches with
      | t :: _ => t.identifier
      | [] => 0

/-- The `touches.map (touch => createPointerEvent ...)` loop, threading the
`touchPositions` state through the sequential calls. -/
def buildEvents (primaryId : Int) (eventType : EventType)
    (options : TouchEventBridgeOptions) (density : ℚ) :
    List Touch → TouchPositions → List NativePointerEvent × TouchPositions
  | [], positions => ([], positions)
  | touch :: rest, positions =>
      let step := createPointerEvent touch eventType options
        (decide (touch.identifier = primaryId)) density positions
      let tail := buildEvents primaryId eventType options density rest step.2
      (step.1 :: tail.1, tail.2)

/-- Embedding of `convertTouchToPointerEvents`: one synthetic event per
changed touch, with the primary chosen as the head of the full
current-contacts list. -/
def convertTouchToPointerEvents (changedTouches allTouches : List Touch)
    (eventType : EventType) (options : TouchEventBridgeOptions) (density : ℚ)
    (positions : TouchPositions) : List NativePointerEvent × TouchPositions :=
  buildEvents (primaryIdentifier allTouches changedTouches) eventType options
    density changedTouches positions

/-! ### Listener model

A registered handler is modelled by its identity (`name`) together with its
observable behaviour during dispatch: whether invoking it throws.  `invoke`
produces the `Except` outcome of calling the handler. -/

structure Listener : Type where
  name : Nat
  throws : Bool
deriving DecidableEq

/-- Calling a handler: raises an exception exactly when the handler throws. -/
def invokeListener (l : Listener) : Except String Unit :=
  if l.throws then Except.error "listener exception" else Except.ok ()

/-- JS `Set.add`: append if not already present (insertion order kept). -/
def setAdd (s : List Listener) (l : Listener) : List Listener :=
  if l ∈ s then s else s ++ [l]

/-- JS `Set.delete`: remove the element (present at most once in a `Set`). -/
def setErase : List Listener → Listener → List Listener
  | [], _ => []
  | x :: rest, l => if x = l then rest else x :: setErase rest l

/-- The `listenersCopy.forEach` loop with its per-listener `try`/`catch`:
every listener is invoked in order; a thrown exception is caught and the
listener recorded in the error log instead of propagating.  Returns
`(invoked, logged)`. -/
def runListeners : List Listener → List Listener × List Listener
  | [] => ([], [])
  | l :: rest =>
      let failed : Bool := match invokeListener l with
        | .error _ => true
        | .ok _ => false
      let tail := runListeners rest
      (l :: tail.1, if failed then l :: tail.2 else tail.2)

theorem runListeners_eq (ls : List Listener) :
    runListeners ls = (ls, ls.filter fun l => l.throws) := by
  induction ls with
  | nil => rfl
  | cons l rest ih =>
      by_cases h : l.throws <;>
        simp [runListeners, invokeListener, h, ih, List.filter]

/-! ### Canvas surface adapter (`ExpoCanvasElement`) -/

/-- An event value as seen by the canvas dispatch path: its `type` plus the
`target` / `currentTarget` slots that `dispatchEvent` mutates (referencing
elements by allocation id). -/
structure CanvasEvent : Type where
  type : String
  target : Option Nat := none
  currentTarget : Option Nat := none
deriving DecidableEq

/-- The mutable state of one `ExpoCanvasElement`.  `eid` models JS reference
identity (each `new ExpoCanvasElement(...)` draws a fresh id); the remaining
fields are the private fields of the class.  The style bag, `parentNode` and
the DOM no-op members are omitted (no claim touches them). -/
structure ExpoCanvasElement : Type where
  eid : Nat
  _width : ℚ
  _height : ℚ
  _gl : Option Nat := none
  _listeners : List (String × List Listener) := []
deriving DecidableEq

namespace ExpoCanvasElement

/-- `new ExpoCanvasElement(width = 1, height = 1)`. -/
def new (eid : Nat) (width : ℚ := 1) (height : ℚ := 1) : ExpoCanvasElement :=
  { eid := eid, _width := width, _height := height }

/-- The `width` getter. -/
def width (c : ExpoCanvasElement) : ℚ := c._width

/-- The `height` getter. -/
def height (c : ExpoCanvasElement) : ℚ := c._height

/-- The result of one `dispatchEvent` call: the boolean return value, the
element afterwards (the method never touches the listener registry or the
dimension fields), the event afterwards, the listeners invoked and the
listeners whose exception was caught and logged. -/
structure DispatchOut : Type where
  result : Bool
  element : ExpoCanvasElement
  event : CanvasEvent
  invoked : List Listener
  logged : List Listener
deriving DecidableEq

/-- Embedding of `ExpoCanvasElement.dispatchEvent`: returns `false` before
any mutation when no listener set exists for the type (or it is empty);
otherwise sets `target` / `currentTarget`, invokes every listener of a copy
of the set, catching and logging exceptions, and returns `true`. -/
def dispatchEvent (c : ExpoCanvasElement) (event : CanvasEvent) : DispatchOut :=
  match mapLookup c._listeners event.type with
  | none => ⟨false, c, event, [], []⟩
  | some listeners =>
      if listeners.isEmpty then ⟨false, c, event, [], []⟩
      else
        let event' := { event with target := some c.eid,
                                   currentTarget := some c.eid }
        let run := runListeners listeners
        ⟨true, c, event', run.1, run.2⟩

/-- The `width` setter: assign the field, then dispatch a `resize` event on
the element itself. -/
def setWidth (c : ExpoCanvasElement) (value : ℚ) : ExpoCanvasElement :=
  (dispatchEvent { c with _width := value } { type := "resize" }).element

/-- The `height` setter: assign the field, then dispatch a `resize` event. -/
def setHeight (c : ExpoCanvasElement) (value : ℚ) : ExpoCanvasElement :=
  (dispatchEvent { c with _height := value } { type := "resize" }).element

/-- The rectangle returned by `getBoundingClientRect` (`toJSON` omitted). -/
structure DOMRect : Type where
  x : ℚ
  y : ℚ
  width : ℚ
  height : ℚ
  top : ℚ
  right : ℚ
  bottom : ℚ
  left : ℚ
deriving DecidableEq

/-- Embedding of `getBoundingClientRect`: physical dimensions at origin. -/
def getBoundingClientRect (c : ExpoCanvasElement) : DOMRect :=
  { x := 0
    y := 0
    width := c._width
    height := c._height
    top := 0
    right := c._width
    bottom := c._height
    left := 0 }

/-- `setGLContext`. -/
def setGLContext (c : ExpoCanvasElement) (gl : Nat) : ExpoCanvasElement :=
  { c with _gl := some gl }

/-- `getGLContext`. -/
def getGLContext (c : ExpoCanvasElement) : Option Nat := c._gl

/-- The closed set of context kinds accepted by `getContext`. -/
inductive ContextId : Type
  | twoD
  | bitmaprenderer
  | webgl
  | experimentalWebgl
  | webgl2
  | experimentalWebgl2
deriving DecidableEq

/-- Embedding of `getContext`: returns the context (a GL handle or `null`)
together with whether a warning was emitted.  `webgl` / `experimental-webgl`
return the bound handle, or `null` with a warning when none is bound; `2d`
always returns `null` with a warning; the `webgl2` kinds return the bound
handle (possibly `null`) with a fallback warning; the default branch returns
`null` silently. -/
def getContext (c : ExpoCanvasElement) : ContextId → Option Nat × Bool
  | .webgl | .experimentalWebgl =>
      match c._gl with
      | none => (none, true)
      | some g => (some g, false)
  | .twoD => (none, true)
  | .webgl2 | .experimentalWebgl2 => (c._gl, true)
  | .bitmaprenderer => (none, false)

/-- Embedding of `addEventListener`: create the set for the type when
missing, then `Set.add` the listener. -/
def addEventListener (c : ExpoCanvasElement) (type : String)
    (listener : Listener) : ExpoCanvasElement :=
  let current := (mapLookup c._listeners type).getD []
  { c with _listeners := mapSet c._listeners type (setAdd current listener) }

/-- Embedding of `removeEventListener`: with no listener argument the whole
set for the type is removed; with a listener only that listener is removed
from the type's set. -/
def removeEventListener (c : ExpoCanvasElement) (type : String)
    (listener : Option Listener) : ExpoCanvasElement :=
  match listener with
  | none => { c with _listeners := mapDelete c._listeners type }
  | some l =>
      match mapLookup c._listeners type with
      | none => c
      | some listeners =>
          { c with _listeners := mapSet c._listeners type (setErase listeners l) }

end ExpoCanvasElement

/-! ### Active context registry (`ExpoAdapter` module state) -/

/-- A native GL handle (`ExpoWebGLRenderingContext`), identified opaquely. -/
abbrev GLHandle : Type := Nat

/-- The adapter module state: `activeCanvas`, `activeGL`, plus the
allocation counter modelling JS reference identity of `new` expressions. -/
structure AdapterRegistry : Type where
  activeCanvas : Option ExpoCanvasElement := none
  activeGL : Option GLHandle := none
  nextEid : Nat := 0
deriving DecidableEq

/-- Embedding of `setActiveGLContext`: construct a fresh canvas with the
given dimensions, bind the handle to it, record both as active, return it. -/
def setActiveGLContext (gl : GLHandle) (width height : ℚ)
    (s : AdapterRegistry) : ExpoCanvasElement × AdapterRegistry :=
  let c := (ExpoCanvasElement.new s.nextEid width height).setGLContext gl
  (c, { activeCanvas := some c, activeGL := some gl, nextEid := s.nextEid + 1 })

/-- `getActiveCanvas`. -/
def getActiveCanvas (s : AdapterRegistry) : Option ExpoCanvasElement :=
  s.activeCanvas

/-- `getActiveGL`. -/
def getActiveGL (s : AdapterRegistry) : Option GLHandle := s.activeGL

/-- `clearActiveContext`. -/
def clearActiveContext (s : AdapterRegistry) : AdapterRegistry :=
  { s with activeCanvas := none, activeGL := none }

/-- Embedding of `ExpoAdapter.createCanvas`: when an active canvas exists it
is returned (its dimensions updated through the resize-dispatching setters
when arguments are supplied — the registry keeps aliasing the same object);
otherwise a fresh placeholder with no bound GL handle is constructed. -/
def createCanvas (width height : Option ℚ) (s : AdapterRegistry) :
    ExpoCanvasElement × AdapterRegistry :=
  match s.activeCanvas with
  | some c =>
      let c := match width with
        | some w => c.setWidth w
        | none => c
      let c := match height with
        | some h => c.setHeight h
        | none => c
      (c, { s with activeCanvas := some c })
  | none =>
      (ExpoCanvasElement.new s.nextEid (width.getD 1) (height.getD 1),
       { s with nextEid := s.nextEid + 1 })

/-! ### Window-scope dispatch (`polyfills.dispatchWindowEvent`) -/

/-- The module-level `windowListeners` map of the polyfills module. -/
abbrev WindowListeners : Type := List (String × List Listener)

/-- The result of one `dispatchWindowEvent` call. -/
structure WindowDispatchOut : Type where
  result : Bool
  invoked : List Listener
  logged : List Listener
deriving DecidableEq

/-- Embedding of `dispatchWindowEvent`: `false` when no (or an empty) set is
registered for the type; otherwise every listener of a copy of the set is
invoked with per-listener exception catching and logging.  Unlike the canvas
path it does not touch `target` / `currentTarget`. -/
def dispatchWindowEvent (w : WindowListeners) (event : CanvasEvent) :
    WindowDispatchOut :=
  match mapLookup w event.type with
  | none => ⟨false, [], []⟩
  | some listeners =>
      if listeners.isEmpty then ⟨false, [], []⟩
      else
        let run := runListeners listeners
        ⟨true, run.1, run.2⟩

/-! ### Basic lemmas about the embedded operations -/

theorem createPointerEvent_isPrimary (touch : Touch) (eventType : EventType)
    (options : TouchEventBridgeOptions) (p : Bool) (density : ℚ)
    (positions : TouchPositions) :
    (createPointerEvent touch eventType options p density positions).1.isPrimary = p :=
  rfl

theorem createPointerEvent_pointerId (touch : Touch) (eventType : EventType)
    (options : TouchEventBridgeOptions) (p : Bool) (density : ℚ)
    (positions : TouchPositions) :
    (createPointerEvent touch eventType options p density positions).1.pointerId =
      touch.identifier :=
  rfl

theorem dispatchEvent_element (c : ExpoCanvasElement) (event : CanvasEvent) :
    (c.dispatchEvent event).element = c := by
  rcases hm : mapLookup c._listeners event.type with _ | ls
  · simp [ExpoCanvasElement.dispatchEvent, hm]
  · by_cases he : ls.isEmpty <;> simp [ExpoCanvasElement.dispatchEvent, hm, he]

theorem setWidth_eq (c : ExpoCanvasElement) (value : ℚ) :
    c.setWidth value = { c with _width := value } := by
  unfold ExpoCanvasElement.setWidth
  rw [dispatchEvent_element]

theorem setHeight_eq (c : ExpoCanvasElement) (value : ℚ) :
    c.setHeight value = { c with _height := value } := by
  unfold ExpoCanvasElement.setHeight
  rw [dispatchEvent_element]

theorem mem_setErase_of_ne (ls : List Listener) (l l' : Listener)
    (hmem : l' ∈ ls) (hne : l' ≠ l) : l' ∈ setErase ls l := by
  induction ls with
  | nil => cases hmem
  | cons x rest ih =>
      by_cases hx : x = l
      · subst hx
        rcases List.mem_cons.mp hmem with rfl | hmem'
        · exact absurd rfl hne
        · simpa [setErase] using hmem'
      · rcases List.mem_cons.mp hmem with rfl | hmem'
        · simp [setErase, hx]
        · simp only [setErase, if_neg hx]
          exact List.mem_cons.mpr (Or.inr (ih hmem'))

theorem not_mem_setErase_self (ls : List Listener) (l : Listener)
    (hnd : ls.Nodup) : l ∉ setErase ls l := by
  induction ls with
  | nil => simp [setErase]
  | cons x rest ih =>
      by_cases hx : x = l
      · subst hx
        simpa [setErase] using (List.nodup_cons.mp hnd).1
      · simpa [setErase, hx, Ne.symm hx] using ih (List.nodup_cons.mp hnd).2

/-! ### Claim theorems -/

/-- Claim C4: for every fresh PointerId (no stored previous position in the
tracking table), the first event built for that id has movement delta
exactly `(0, 0)`. -/
theorem c4_fresh_pointer_zero_movement (touch : Touch) (eventType : EventType)
    (options : TouchEventBridgeOptions) (p : Bool) (density : ℚ)
    (positions : TouchPositions)
    (hfresh : mapLookup positions touch.identifier = none) :
    (createPointerEvent touch eventType options p density positions).1.movementX = 0 ∧
    (createPointerEvent touch eventType options p density positions).1.movementY = 0 := by
  constructor <;> simp [createPointerEvent, hfresh]

theorem c4_witness :
    mapLookup ([] : TouchPositions) (7 : Int) = none ∧
    ((createPointerEvent ⟨7, 10, 20, some 3, some 4⟩ .pointermove ⟨0, 0, 0⟩
        true 2 []).1.movementX = 0 ∧
     (createPointerEvent ⟨7, 10, 20, some 3, some 4⟩ .pointermove ⟨0, 0, 0⟩
        true 2 []).1.movementY = 0) :=
  ⟨rfl, c4_fresh_pointer_zero_movement ⟨7, 10, 20, some 3, some 4⟩ .pointermove
    ⟨0, 0, 0⟩ true 2 [] rfl⟩

/-- Claim C5: the derived-field table of the builder — phase start gives
`button = 0`, `buttons = 1`; phase end/cancel gives `button = 0`,
`buttons = 0`; phase move gives `button = -1` and `buttons` equal to the
active value `1`; `pressure` is `0` on end/cancel and the fixed constant
`0.5` on all other phases. -/
theorem c5_button_buttons_pressure_table (touch : Touch)
    (options : TouchEventBridgeOptions) (p : Bool) (density : ℚ)
    (positions : TouchPositions) :
    ((createPointerEvent touch .pointerdown options p density positions).1.button = 0 ∧
     (createPointerEvent touch .pointerdown options p density positions).1.buttons = 1 ∧
     (createPointerEvent touch .pointerdown options p density positions).1.pressure = 1 / 2) ∧
    ((createPointerEvent touch .pointermove options p density positions).1.button = -1 ∧
     (createPointerEvent touch .pointermove options p density positions).1.buttons = 1 ∧
     (createPointerEvent touch .pointermove options p density positions).1.pressure = 1 / 2) ∧
    ((createPointerEvent touch .pointerup options p density positions).1.button = 0 ∧
     (createPointerEvent touch .pointerup options p density positions).1.buttons = 0 ∧
     (createPointerEvent touch .pointerup options p density positions).1.pressure = 0) ∧
    ((createPointerEvent touch .pointercancel options p density positions).1.button = 0 ∧
     (createPointerEvent touch .pointercancel options p density positions).1.buttons = 0 ∧
     (createPointerEvent touch .pointercancel options p density positions).1.pressure = 0) := by
  refine ⟨⟨?_, ?_, ?_⟩, ⟨?_, ?_, ?_⟩, ⟨?_, ?_, ?_⟩, ⟨?_, ?_, ?_⟩⟩ <;>
    simp [createPointerEvent]

/-- Claim C3: in the sequence update (phase start), update (phase move),
release (phase end or cancel) on one PointerId, the second update's movement
delta equals the coordinate difference from the first, the release event's
movement delta is computed from the still-stored previous position, and
after the release the tracking table holds no entry for the id. -/
theorem c3_update_update_release (t1 t2 t3 : Touch) (ty3 : EventType)
    (options : TouchEventBridgeOptions) (p1 p2 p3 : Bool) (density : ℚ)
    (s0 : TouchPositions)
    (hid2 : t2.identifier = t1.identifier)
    (hid3 : t3.identifier = t1.identifier)
    (hty3 : ty3 = .pointerup ∨ ty3 = .pointercancel) :
    (createPointerEvent t2 .pointermove options p2 density
        (createPointerEvent t1 .pointerdown options p1 density s0).2).1.movementX =
      (createPointerEvent t2 .pointermove options p2 density
        (createPointerEvent t1 .pointerdown options p1 density s0).2).1.clientX -
      (createPointerEvent t1 .pointerdown options p1 density s0).1.clientX ∧
    (createPointerEvent t2 .pointermove options p2 density
        (createPointerEvent t1 .pointerdown options p1 density s0).2).1.movementY =
      (createPointerEvent t2 .pointermove options p2 density
        (createPointerEvent t1 .pointerdown options p1 density s0).2).1.clientY -
      (createPointerEvent t1 .pointerdown options p1 density s0).1.clientY ∧
    (createPointerEvent t3 ty3 options p3 density
        (createPointerEvent t2 .pointermove options p2 density
          (createPointerEvent t1 .pointerdown options p1 density s0).2).2).1.movementX =
      (createPointerEvent t3 ty3 options p3 density
        (createPointerEvent t2 .pointermove options p2 density
          (createPointerEvent t1 .pointerdown options p1 density s0).2).2).1.clientX -
      (createPointerEvent t2 .pointermove options p2 density
        (createPointerEvent t1 .pointerdown options p1 density s0).2).1.clientX ∧
    (createPointerEvent t3 ty3 options p3 density
        (createPointerEvent t2 .pointermove options p2 density
          (createPointerEvent t1 .pointerdown options p1 density s0).2).2).1.movementY =
      (createPointerEvent t3 ty3 options p3 density
        (createPointerEvent t2 .pointermove options p2 density
          (createPointerEvent t1 .pointerdown options p1 density s0).2).2).1.clientY -
      (createPointerEvent t2 .pointermove options p2 density
        (createPointerEvent t1 .pointerdown options p1 density s0).2).1.clientY ∧
    mapLookup (createPointerEvent t3 ty3 options p3 density
        (createPointerEvent t2 .pointermove options p2 density
          (createPointerEvent t1 .pointerdown options p1 density s0).2).2).2
      t1.identifier = none := by
  rcases hty3 with rfl | rfl <;>
    refine ⟨?_, ?_, ?_, ?_, ?_⟩ <;>
      simp [createPointerEvent, hid2, hid3, mapLookup_mapSet_self,
        mapLookup_mapDelete_self]

theorem c3_update_update_release_witness :
    ((⟨3, 5, 6, some 5, some 6⟩ : Touch).identifier =
        (⟨3, 1, 1, some 1, some 2⟩ : Touch).identifier) ∧
    ((⟨3, 7, 8, some 7, some 8⟩ : Touch).identifier =
        (⟨3, 1, 1, some 1, some 2⟩ : Touch).identifier) ∧
    (EventType.pointerup = EventType.pointerup ∨
        EventType.pointerup = EventType.pointercancel) ∧
    mapLookup (createPointerEvent ⟨3, 7, 8, some 7, some 8⟩ .pointerup
        ⟨0, 0, 0⟩ false 1
        (createPointerEvent ⟨3, 5, 6, some 5, some 6⟩ .pointermove
          ⟨0, 0, 0⟩ false 1
          (createPointerEvent ⟨3, 1, 1, some 1, some 2⟩ .pointerdown
            ⟨0, 0, 0⟩ true 1 []).2).2).2
      (⟨3, 1, 1, some 1, some 2⟩ : Touch).identifier = none :=
  ⟨rfl, rfl, Or.inl rfl,
   (c3_update_update_release ⟨3, 1, 1, some 1, some 2⟩
      ⟨3, 5, 6, some 5, some 6⟩ ⟨3, 7, 8, some 7, some 8⟩ .pointerup
      ⟨0, 0, 0⟩ true false false 1 [] rfl rfl (Or.inl rfl)).2.2.2.2⟩

/-! ### Claim C1: primary-pointer identity across a gesture -/

/-- Options used in the C1 gesture scenario. -/
def c1Opts : TouchEventBridgeOptions := ⟨0, 0, 0⟩

/-- Contact with identifier 7 (the primary at gesture start). -/
def c1T7 : Touch := ⟨7, 10, 10, some 10, some 10⟩

/-- Contact with identifier 9, present from gesture start. -/
def c1T9 : Touch := ⟨9, 20, 20, some 20, some 20⟩

/-- Contact 9 again, at a later position, after contact 7 released. -/
def c1T9m : Touch := ⟨9, 21, 21, some 21, some 21⟩

/-- Gesture start: contacts [7, 9]; primary established as 7. -/
def c1Call1 : List NativePointerEvent × TouchPositions :=
  convertTouchToPointerEvents [c1T7, c1T9] [c1T7, c1T9] .pointerdown c1Opts 1 []

/-- Contact 7 releases while contact 9 continues: changed = [7], full
current-contacts list = [9]. -/
def c1Call2 : List NativePointerEvent × TouchPositions :=
  convertTouchToPointerEvents [c1T7] [c1T9] .pointerup c1Opts 1 c1Call1.2

/-- Contact 9 moves, still within the same gesture. -/
def c1Call3 : List NativePointerEvent × TouchPositions :=
  convertTouchToPointerEvents [c1T9m] [c1T9m] .pointermove c1Opts 1 c1Call2.2

/-- Claim C1 counterexample: the primary established at gesture start is id
7, yet once contact 7 releases while contact 9 continues, the event built
for the release of 7 is no longer marked primary and the subsequent move
event for id 9 is marked primary — the claim's "isPrimary true for 7, false
for all others, for every subsequent event of the gesture" fails. -/
theorem c1_counterexample :
    primaryIdentifier [c1T7, c1T9] [c1T7, c1T9] = 7 ∧
    (c1Call1.1.map fun e => (e.pointerId, e.isPrimary)) = [(7, true), (9, false)] ∧
    (c1Call2.1.map fun e => (e.pointerId, e.isPrimary)) = [(7, false)] ∧
    (c1Call3.1.map fun e => (e.pointerId, e.isPrimary)) = [(9, true)] := by
  refine ⟨rfl, ?_, ?_, ?_⟩ <;> decide

/-- Claim C1 as amended: primary identity is recomputed at every conversion
call rather than frozen at gesture start — an event is marked primary
exactly when its identifier equals the first identifier of the full
current-contacts list at that call (falling back to the first changed touch,
then 0). -/
theorem c1_primary_recomputed_per_call (changedTouches allTouches : List Touch)
    (eventType : EventType) (options : TouchEventBridgeOptions) (density : ℚ)
    (positions : TouchPositions) :
    ∀ ev ∈ (convertTouchToPointerEvents changedTouches allTouches eventType
        options density positions).1,
      (ev.isPrimary = true ↔
        ev.pointerId = primaryIdentifier allTouches changedTouches) := by
  unfold convertTouchToPointerEvents
  generalize primaryIdentifier allTouches changedTouches = pid
  induction changedTouches generalizing positions with
  | nil =>
      intro ev hev
      simp [buildEvents] at hev
  | cons t rest ih =>
      intro ev hev
      simp only [buildEvents] at hev
      rcases List.mem_cons.mp hev with rfl | hev'
      · simp [createPointerEvent_isPrimary, createPointerEvent_pointerId]
      · exact ih _ ev hev'

/-- The first event of the C1 gesture-start call, used as the witness. -/
def c1Ev1 : NativePointerEvent :=
  (createPointerEvent c1T7 .pointerdown c1Opts
    (decide (c1T7.identifier = primaryIdentifier [c1T7, c1T9] [c1T7, c1T9]))
    1 []).1

theorem c1_primary_recomputed_per_call_witness :
    c1Ev1 ∈ c1Call1.1 ∧
    (c1Ev1.isPrimary = true ↔
      c1Ev1.pointerId = primaryIdentifier [c1T7, c1T9] [c1T7, c1T9]) :=
  have hm : c1Ev1 ∈ c1Call1.1 := List.mem_cons_self _ _
  ⟨hm, c1_primary_recomputed_per_call [c1T7, c1T9] [c1T7, c1T9] .pointerdown
    c1Opts 1 [] c1Ev1 hm⟩

/-! ### Claim C2: bounding rect reports the physical surface size -/

/-- A width or height assignment through the resize-dispatching setters. -/
inductive ResizeOp : Type
  | setW (value : ℚ)
  | setH (value : ℚ)

/-- Apply one assignment. -/
def applyResize (c : ExpoCanvasElement) : ResizeOp → ExpoCanvasElement
  | .setW v => c.setWidth v
  | .setH v => c.setHeight v

/-- Apply a sequence of width/height assignments in order. -/
def applyResizes (c : ExpoCanvasElement) : List ResizeOp → ExpoCanvasElement
  | [] => c
  | op :: rest => applyResizes (applyResize c op) rest

theorem applyResizes_append (c : ExpoCanvasElement) (ops : List ResizeOp)
    (op : ResizeOp) :
    applyResizes c (ops ++ [op]) = applyResize (applyResizes c ops) op := by
  induction ops generalizing c with
  | nil => rfl
  | cons o rest ih => simp [applyResizes, ih]

/-- Claim C2: after any sequence of width/height assignments,
`getBoundingClientRect` sits at the origin with width and height equal to
the element's current `width` / `height` properties (the physical
drawing-surface size — the last assigned value), so the ratio
`canvas.width / rect.width` is exactly 1. -/
theorem c2_rect_equals_physical_size (c : ExpoCanvasElement)
    (ops : List ResizeOp) :
    (applyResizes c ops).getBoundingClientRect.x = 0 ∧
    (applyResizes c ops).getBoundingClientRect.y = 0 ∧
    (applyResizes c ops).getBoundingClientRect.left = 0 ∧
    (applyResizes c ops).getBoundingClientRect.top = 0 ∧
    (applyResizes c ops).getBoundingClientRect.width = (applyResizes c ops).width ∧
    (applyResizes c ops).getBoundingClientRect.height = (applyResizes c ops).height ∧
    (∀ v : ℚ, (applyResizes c (ops ++ [ResizeOp.setW v])).width = v) ∧
    (∀ v : ℚ, (applyResizes c (ops ++ [ResizeOp.setH v])).height = v) ∧
    ((applyResizes c ops).width ≠ 0 →
      (applyResizes c ops).width / (applyResizes c ops).getBoundingClientRect.width = 1) := by
  refine ⟨rfl, rfl, rfl, rfl, rfl, rfl, ?_, ?_, ?_⟩
  · intro v
    rw [applyResizes_append]
    simp [applyResize, setWidth_eq, ExpoCanvasElement.width]
  · intro v
    rw [applyResizes_append]
    simp [applyResize, setHeight_eq, ExpoCanvasElement.height]
  · intro h
    exact div_self h

theorem c2_rect_equals_physical_size_witness :
    (applyResizes (ExpoCanvasElement.new 0 1 1)
        [ResizeOp.setW 4, ResizeOp.setH 3]).width ≠ 0 ∧
    (applyResizes (ExpoCanvasElement.new 0 1 1)
        [ResizeOp.setW 4, ResizeOp.setH 3]).width /
      (applyResizes (ExpoCanvasElement.new 0 1 1)
        [ResizeOp.setW 4, ResizeOp.setH 3]).getBoundingClientRect.width = 1 :=
  ⟨by decide,
   (c2_rect_equals_physical_size (ExpoCanvasElement.new 0 1 1)
      [ResizeOp.setW 4, ResizeOp.setH 3]).2.2.2.2.2.2.2.2 (by decide)⟩

/-! ### Claim C6: dispatch to an unregistered type is a no-op -/

/-- Claim C6: dispatching an event whose type has zero registered listeners
(no listener set, or an empty one) returns `false` and performs no side
effects — no listener runs, nothing is logged, the listener registry (the
whole element) is unchanged, and the event object is not mutated. -/
theorem c6_dispatch_unregistered_type_noop (c : ExpoCanvasElement)
    (event : CanvasEvent)
    (hzero : mapLookup c._listeners event.type = none ∨
             mapLookup c._listeners event.type = some []) :
    c.dispatchEvent event = ⟨false, c, event, [], []⟩ := by
  rcases hzero with h | h <;> simp [ExpoCanvasElement.dispatchEvent, h]

theorem c6_dispatch_unregistered_type_noop_witness :
    (mapLookup (ExpoCanvasElement.new 0 1 1)._listeners "pointerdown" = none ∨
     mapLookup (ExpoCanvasElement.new 0 1 1)._listeners "pointerdown" = some []) ∧
    (ExpoCanvasElement.new 0 1 1).dispatchEvent ⟨"pointerdown", none, none⟩ =
      ⟨false, ExpoCanvasElement.new 0 1 1, ⟨"pointerdown", none, none⟩, [], []⟩ :=
  ⟨Or.inl rfl,
   c6_dispatch_unregistered_type_noop (ExpoCanvasElement.new 0 1 1)
     ⟨"pointerdown", none, none⟩ (Or.inl rfl)⟩

/-! ### Claim C7: a throwing listener does not block the others -/

/-- Claim C7: during canvas dispatch and window dispatch alike, every
registered listener for the type is invoked even when some of them throw;
thrown exceptions are caught and logged (exactly the throwing listeners end
up in the error log) and dispatch returns normally with `true`. -/
theorem c7_listener_exception_isolated (c : ExpoCanvasElement)
    (w : WindowListeners) (event eventW : CanvasEvent)
    (ls lsW : List Listener)
    (hc : mapLookup c._listeners event.type = some ls) (hcne : ls ≠ [])
    (hw : mapLookup w eventW.type = some lsW) (hwne : lsW ≠ []) :
    ((c.dispatchEvent event).invoked = ls ∧
     (c.dispatchEvent event).logged = ls.filter (fun l => l.throws) ∧
     (c.dispatchEvent event).result = true) ∧
    ((dispatchWindowEvent w eventW).invoked = lsW ∧
     (dispatchWindowEvent w eventW).logged = lsW.filter (fun l => l.throws) ∧
     (dispatchWindowEvent w eventW).result = true) := by
  have h1 : ls.isEmpty = false := by
    cases ls with
    | nil => exact absurd rfl hcne
    | cons a b => rfl
  have h2 : lsW.isEmpty = false := by
    cases lsW with
    | nil => exact absurd rfl hwne
    | cons a b => rfl
  refine ⟨⟨?_, ?_, ?_⟩, ⟨?_, ?_, ?_⟩⟩ <;>
    simp [ExpoCanvasElement.dispatchEvent, dispatchWindowEvent, hc, hw, h1, h2,
      runListeners_eq]

/-- A canvas with a throwing and a non-throwing listener on `pointerdown`. -/
def c7Canvas : ExpoCanvasElement :=
  { eid := 0, _width := 1, _height := 1, _gl := none,
    _listeners := [("pointerdown", [⟨1, true⟩, ⟨2, false⟩])] }

/-- A window registry with the same two listeners on `pointermove`. -/
def c7Window : WindowListeners := [("pointermove", [⟨1, true⟩, ⟨2, false⟩])]

theorem c7_listener_exception_isolated_witness :
    (mapLookup c7Canvas._listeners "pointerdown" =
        some [⟨1, true⟩, ⟨2, false⟩] ∧
     ([⟨1, true⟩, ⟨2, false⟩] : List Listener) ≠ []) ∧
    ((c7Canvas.dispatchEvent ⟨"pointerdown", none, none⟩).invoked =
        [⟨1, true⟩, ⟨2, false⟩] ∧
     (c7Canvas.dispatchEvent ⟨"pointerdown", none, none⟩).logged =
        ([⟨1, true⟩, ⟨2, false⟩] : List Listener).filter (fun l => l.throws) ∧
     (c7Canvas.dispatchEvent ⟨"pointerdown", none, none⟩).result = true) ∧
    ((dispatchWindowEvent c7Window ⟨"pointermove", none, none⟩).invoked =
        [⟨1, true⟩, ⟨2, false⟩] ∧
     (dispatchWindowEvent c7Window ⟨"pointermove", none, none⟩).logged =
        ([⟨1, true⟩, ⟨2, false⟩] : List Listener).filter (fun l => l.throws) ∧
     (dispatchWindowEvent c7Window ⟨"pointermove", none, none⟩).result = true) :=
  have h := c7_listener_exception_isolated c7Canvas c7Window
    ⟨"pointerdown", none, none⟩ ⟨"pointermove", none, none⟩
    [⟨1, true⟩, ⟨2, false⟩] [⟨1, true⟩, ⟨2, false⟩]
    rfl (by decide) rfl (by decide)
  ⟨⟨rfl, by decide⟩, h.1, h.2⟩

/-! ### Claim C8: a second bind retires the first binding -/

/-- Claim C8 counterexample: when the two successive `setActiveGLContext`
calls bind the same handle (here 5), the first call's handle is still
reachable via the registry afterwards — `getActiveGL` returns it — refuting
the claim's unconditional "the first adapter and its handle are no longer
reachable via the registry". -/
theorem c8_counterexample :
    getActiveGL (setActiveGLContext 5 2 2
        (setActiveGLContext 5 1 1 ⟨none, none, 0⟩).2).2 = some 5 := rfl

/-- Claim C8 as amended: the second call creates and returns a fresh
adapter — `getActiveCanvas` afterwards yields it and it is identity-distinct
from the first adapter, which is no longer reachable via the registry; the
registry then holds exactly the second handle, so the first handle is no
longer reachable provided the second call bound a different handle; and
after `clearActiveContext` both getters return `null`. -/
theorem c8_second_bind_retires_first (s : AdapterRegistry) (h1 h2 : GLHandle)
    (w1 ht1 w2 ht2 : ℚ) :
    getActiveCanvas (setActiveGLContext h2 w2 ht2
        (setActiveGLContext h1 w1 ht1 s).2).2 =
      some (setActiveGLContext h2 w2 ht2 (setActiveGLContext h1 w1 ht1 s).2).1 ∧
    (setActiveGLContext h2 w2 ht2 (setActiveGLContext h1 w1 ht1 s).2).1.eid ≠
      (setActiveGLContext h1 w1 ht1 s).1.eid ∧
    getActiveCanvas (setActiveGLContext h2 w2 ht2
        (setActiveGLContext h1 w1 ht1 s).2).2 ≠
      some (setActiveGLContext h1 w1 ht1 s).1 ∧
    getActiveGL (setActiveGLContext h2 w2 ht2
        (setActiveGLContext h1 w1 ht1 s).2).2 = some h2 ∧
    (h1 ≠ h2 →
      getActiveGL (setActiveGLContext h2 w2 ht2
        (setActiveGLContext h1 w1 ht1 s).2).2 ≠ some h1) ∧
    getActiveCanvas (clearActiveContext (setActiveGLContext h2 w2 ht2
        (setActiveGLContext h1 w1 ht1 s).2).2) = none ∧
    getActiveGL (clearActiveContext (setActiveGLContext h2 w2 ht2
        (setActiveGLContext h1 w1 ht1 s).2).2) = none := by
  refine ⟨rfl, ?_, ?_, rfl, ?_, rfl, rfl⟩
  · simp [setActiveGLContext, ExpoCanvasElement.new,
      ExpoCanvasElement.setGLContext]
  · intro heq
    have hc := Option.some.inj heq
    have : s.nextEid + 1 = s.nextEid := congrArg ExpoCanvasElement.eid hc
    omega
  · intro hne heq
    exact hne (Option.some.inj heq).symm

theorem c8_second_bind_retires_first_witness :
    (1 : GLHandle) ≠ 2 ∧
    getActiveGL (setActiveGLContext 2 2 2
        (setActiveGLContext 1 1 1 ⟨none, none, 0⟩).2).2 ≠ some 1 :=
  ⟨by decide,
   (c8_second_bind_retires_first ⟨none, none, 0⟩ 1 2 1 1 2 2).2.2.2.2.1
     (by decide)⟩

/-! ### Claim C9: the canvas factory returns the active adapter or a
placeholder -/

/-- Claim C9: `createCanvas` returns the identical active adapter instance
when one exists (same reference identity, whatever dimensions were passed);
otherwise it returns a fresh placeholder with no bound GL handle, on which
`getContext('webgl')` returns `null` with a warning until a handle is bound,
after which it returns the handle without warning. -/
theorem c9_createCanvas_active_or_placeholder (s : AdapterRegistry)
    (width height : Option ℚ) :
    (∀ c, s.activeCanvas = some c → (createCanvas width height s).1.eid = c.eid) ∧
    (s.activeCanvas = none →
      (createCanvas width height s).1._gl = none ∧
      (createCanvas width height s).1.getContext .webgl = (none, true) ∧
      ∀ g, ((createCanvas width height s).1.setGLContext g).getContext .webgl =
        (some g, false)) := by
  constructor
  · intro c hc
    cases width <;> cases height <;>
      simp [createCanvas, hc, setWidth_eq, setHeight_eq]
  · intro hnone
    refine ⟨?_, ?_, ?_⟩ <;>
      simp [createCanvas, hnone, ExpoCanvasElement.new,
        ExpoCanvasElement.getContext, ExpoCanvasElement.setGLContext]

theorem c9_createCanvas_active_or_placeholder_witness :
    ((⟨some (ExpoCanvasElement.new 2 4 4), some 5, 3⟩ :
        AdapterRegistry).activeCanvas = some (ExpoCanvasElement.new 2 4 4)) ∧
    (createCanvas (some 8) none
        ⟨some (ExpoCanvasElement.new 2 4 4), some 5, 3⟩).1.eid =
      (ExpoCanvasElement.new 2 4 4).eid ∧
    ((⟨none, none, 0⟩ : AdapterRegistry).activeCanvas = none) ∧
    (createCanvas none none ⟨none, none, 0⟩).1._gl = none ∧
    (createCanvas none none ⟨none, none, 0⟩).1.getContext .webgl =
      (none, true) ∧
    ((createCanvas none none ⟨none, none, 0⟩).1.setGLContext 6).getContext
      .webgl = (some 6, false) :=
  have hA := c9_createCanvas_active_or_placeholder
    ⟨some (ExpoCanvasElement.new 2 4 4), some 5, 3⟩ (some 8) none
  have hB := c9_createCanvas_active_or_placeholder ⟨none, none, 0⟩ none none
  ⟨rfl, hA.1 _ rfl, rfl, (hB.2 rfl).1, (hB.2 rfl).2.1, (hB.2 rfl).2.2 6⟩

/-! ### Claim C10: removeEventListener with and without a listener -/

/-- Claim C10: calling `removeEventListener(type)` with the listener omitted
removes the whole listener set for the type (a subsequent dispatch of that
type returns `false`), whereas calling it with a specific listener removes
only that listener and leaves every other registered listener in place. -/
theorem c10_removeEventListener_all_vs_one (c : ExpoCanvasElement)
    (type : String) (l : Listener) (ls : List Listener) (event : CanvasEvent)
    (hty : event.type = type)
    (hls : mapLookup c._listeners type = some ls) (hnd : ls.Nodup) :
    ((c.removeEventListener type none).dispatchEvent event).result = false ∧
    mapLookup (c.removeEventListener type (some l))._listeners type =
      some (setErase ls l) ∧
    (∀ l', l' ∈ ls → l' ≠ l → l' ∈ setErase ls l) ∧
    l ∉ setErase ls l := by
  refine ⟨?_, ?_, ?_, ?_⟩
  · simp [ExpoCanvasElement.removeEventListener,
      ExpoCanvasElement.dispatchEvent, hty, mapLookup_mapDelete_self]
  · simp [ExpoCanvasElement.removeEventListener, hls, mapLookup_mapSet_self]
  · intro l' hmem hne
    exact mem_setErase_of_ne ls l l' hmem hne
  · exact not_mem_setErase_self ls l hnd

/-- A canvas with two listeners registered for `pointerdown`. -/
def c10Canvas : ExpoCanvasElement :=
  { eid := 0, _width := 1, _height := 1, _gl := none,
    _listeners := [("pointerdown", [⟨1, false⟩, ⟨2, false⟩])] }

theorem c10_removeEventListener_all_vs_one_witness :
    ((⟨"pointerdown", none, none⟩ : CanvasEvent).type = "pointerdown" ∧
     mapLookup c10Canvas._listeners "pointerdown" =
       some [⟨1, false⟩, ⟨2, false⟩] ∧
     ([⟨1, false⟩, ⟨2, false⟩] : List Listener).Nodup) ∧
    ((c10Canvas.removeEventListener "pointerdown" none).dispatchEvent
        ⟨"pointerdown", none, none⟩).result = false ∧
    mapLookup (c10Canvas.removeEventListener "pointerdown"
        (some ⟨1, false⟩))._listeners "pointerdown" =
      some (setErase [⟨1, false⟩, ⟨2, false⟩] ⟨1, false⟩) ∧
    (⟨2, false⟩ : Listener) ∈ setErase [⟨1, false⟩, ⟨2, false⟩] ⟨1, false⟩ ∧
    (⟨1, false⟩ : Listener) ∉ setErase [⟨1, false⟩, ⟨2, false⟩] ⟨1, false⟩ :=
  have h := c10_removeEventListener_all_vs_one c10Canvas "pointerdown"
    ⟨1, false⟩ [⟨1, false⟩, ⟨2, false⟩] ⟨"pointerdown", none, none⟩
    rfl rfl (by decide)
  ⟨⟨rfl, rfl, by decide⟩, h.1, h.2.1,
   h.2.2.1 ⟨2, false⟩ (by decide) (by decide), h.2.2.2⟩

end PixiExpo
